import Mathlib

set_option maxHeartbeats 1000000
set_option linter.unusedVariables false

/-! Shallow embedding of the CMP message-protection subsystem and of the
    OSSL_STORE session engine of this repository, together with theorems
    checking the specification claims about them.

    The CMP part embeds ossl_cmp_calc_protection, ossl_cmp_msg_add_extraCerts,
    set_pbmac_algor, set_sig_algor, set_senderKID and ossl_cmp_msg_protect.
    The store part embeds OSSL_STORE_open_with_libctx (its candidate-scheme
    construction), OSSL_STORE_expect, OSSL_STORE_find, OSSL_STORE_load,
    OSSL_STORE_error and OSSL_STORE_eof.

    External collaborators (MAC and signature primitives, DER encoding,
    chain building, loader backends) are modelled as explicit total
    functions or as scripted backend responses, marked as such below. -/

/-- CMP error reason codes, named after the CMP_R constants that the source
    pushes on the error stack with CMPerr. -/
inductive CmpErr where
  | unknownAlgorithmID
  | missingPBMSecret
  | errorCalculatingProtection
  | wrongAlgorithmOID
  | missingKeyInputForCreatingProtection
  | certAndKeyDoNotMatch
  | unsupportedKeyType
  | missingSenderIdentification
  | errorProtectingMessage
deriving DecidableEq, Repr

/-- The NID of the id-PasswordBasedMAC algorithm object identifier. -/
def NID_id_PasswordBasedMAC : Nat := 73

/-- PBM parameters as carried inside a PasswordBasedMAC algorithm
    descriptor (OSSL_CRMF_PBMPARAMETER). -/
structure PBMParameter where
  slen : Nat
  owf : Nat
  itercnt : Nat
  macAlg : Nat
deriving DecidableEq, Repr

/-- The parameter blob of an X509_ALGOR: either a DER blob from which a
    PBM parameter can be decoded by d2i_OSSL_CRMF_PBMPARAMETER, or a blob
    on which that decoder fails. -/
inductive AlgParam where
  | decodable (pbm : PBMParameter)
  | garbage
deriving DecidableEq, Repr

/-- An X509_ALGOR algorithm descriptor: algorithm OID plus optional
    parameter blob (ppval; none models a NULL parameter). -/
structure X509Algor where
  oid : Nat
  param : Option AlgParam
deriving DecidableEq, Repr

/-- An X509 certificate, reduced to the attributes the embedded code
    observes: an identity (structural equality), the public key it
    certifies, the optional subject-key-identifier extension, and whether
    it is self-signed. -/
structure X509Cert where
  certId : Nat
  pubkey : Nat
  skid : Option Nat
  selfSigned : Bool
deriving DecidableEq, Repr

/-- An EVP_PKEY private key: an identity and a key type (EVP_PKEY_id). -/
structure EVPKey where
  kid : Nat
  ktype : Nat
deriving DecidableEq, Repr

/-- An ASN1_BIT_STRING: content octets plus the C flags word. -/
structure BitStr where
  data : List Nat
  flags : Nat
deriving DecidableEq, Repr

/-- The CMP PKIHeader fields used by the protection code. The sender
    general name is modelled as its list of RDN components; the empty list
    models the NULL-DN. -/
structure PKIHeader where
  sender : List Nat
  senderKID : Option Nat
  protectionAlg : Option X509Algor
deriving DecidableEq, Repr

/-- An OSSL_CMP_MSG: header, body (abstract), protection bit string and
    extra certificates (none models a NULL stack). -/
structure CmpMsg where
  header : PKIHeader
  body : Nat
  protection : Option BitStr
  extraCerts : Option (List X509Cert)
deriving DecidableEq, Repr

/-- The OSSL_CMP_CTX fields read by the protection code. -/
structure CmpCtx where
  secretValue : Option (List Nat)
  referenceValue : Option Nat
  cert : Option X509Cert
  pkey : Option EVPKey
  untrusted_certs : Option (List X509Cert)
  extraCertsOut : List X509Cert
  pbm_slen : Nat
  pbm_owf : Nat
  pbm_itercnt : Nat
  pbm_mac : Nat
  digest : Nat
  unprotectedSend : Bool
deriving DecidableEq, Repr

/-- Modelled from the spec: the encode_protected_part capability
    (i2d_OSSL_CMP_PROTECTEDPART), an external DER encoder of
    (header, body); modelled as a total function of its inputs. -/
def i2d_OSSL_CMP_PROTECTEDPART (header : PKIHeader) (body : Nat) : List Nat :=
  body :: header.sender

/-- Modelled from the spec: the compute_mac capability (OSSL_CRMF_pbm_new),
    an external keyed-MAC primitive; modelled as a total function of the
    secret and the data. -/
def OSSL_CRMF_pbm_new (pbm : PBMParameter) (der : List Nat)
    (secret : List Nat) : List Nat :=
  secret ++ der ++ [pbm.owf, pbm.macAlg]

/-- Modelled from the spec: the sign capability (ASN1_item_sign), an
    external signature primitive; modelled as a total function of key,
    digest and data. -/
def ASN1_item_sign_bytes (key : EVPKey) (md : Nat) (der : List Nat) : List Nat :=
  key.kid :: md :: der

/-- Modelled from the spec: the find_digest_for_signature_oid capability
    (OBJ_find_sigid_algs combined with EVP_get_digestbynid); a signature
    OID of the form 1000 * keytype + digest maps back to its digest. -/
def OBJ_find_sigid_algs (signid : Nat) : Option Nat :=
  if 1000 ≤ signid ∧ signid % 1000 ≠ 0 then some (signid % 1000) else none

/-- Modelled from the spec: the reverse signature-OID lookup
    (OBJ_find_sigid_by_algs), defined when digest and key type are known
    (nonzero) and inverse to OBJ_find_sigid_algs. -/
def OBJ_find_sigid_by_algs (md : Nat) (keyType : Nat) : Option Nat :=
  if md ≠ 0 ∧ md < 1000 ∧ keyType ≠ 0 then some (1000 * keyType + md) else none

/-- Modelled from the spec: X509_check_private_key, which verifies that a
    key matches the public key certified by a certificate. -/
def X509_check_private_key (cert : X509Cert) (key : EVPKey) : Bool :=
  cert.pubkey = key.kid

/-- Modelled from the spec: ossl_cmp_general_name_is_NULL_DN; the sender
    name is the NULL-DN exactly when it has no components. -/
def ossl_cmp_general_name_is_NULL_DN (name : List Nat) : Bool :=
  name.isEmpty

/-- The ASN1_STRING_FLAG_BITS_LEFT flag bit (0x08). -/
def ASN1_STRING_FLAG_BITS_LEFT : Nat := 8

/-- Clearing of the low four flag bits, the Nat counterpart of
    flags AND NOT (ASN1_STRING_FLAG_BITS_LEFT OR 0x07). -/
def clearBitsLeft (f : Nat) : Nat := 16 * (f / 16)

/-- The bit-string flag manipulation performed by ossl_cmp_calc_protection
    on a freshly allocated ASN1_BIT_STRING holding the MAC output:
    clear BITS_LEFT and the low three bits, then set BITS_LEFT. -/
def mkProtectionBitStr (protection : List Nat) : BitStr :=
  { data := protection
    flags := clearBitsLeft 0 ||| ASN1_STRING_FLAG_BITS_LEFT }

/-- Number of trailing zero bits of one content octet. -/
def trailingZeroBits (b : Nat) : Nat :=
  if b % 2 = 1 then 0
  else if b / 2 % 2 = 1 then 1
  else if b / 4 % 2 = 1 then 2
  else if b / 8 % 2 = 1 then 3
  else if b / 16 % 2 = 1 then 4
  else if b / 32 % 2 = 1 then 5
  else if b / 64 % 2 = 1 then 6
  else if b / 128 % 2 = 1 then 7
  else 8

/-- Drop trailing zero octets of a content string. -/
def dropTrailingZeros (l : List Nat) : List Nat :=
  (l.reverse.dropWhile (fun b => b = 0)).reverse

/-- Modelled from the spec: the unused-bit count that the standard
    named-bit-list encoding rule would produce for a bit string (trailing
    zero octets dropped, then trailing zero bits of the last octet). -/
def namedBitUnusedBits (data : List Nat) : Nat :=
  match (dropTrailingZeros data).getLast? with
  | none => 0
  | some b => trailingZeroBits b

/-- Modelled from the spec: the unused-bit count the DER encoder
    (i2c_ASN1_BIT_STRING) emits for a bit string: taken verbatim from the
    low flag bits when BITS_LEFT is set, named-bit-list normalization
    otherwise. -/
def encodedUnusedBits (b : BitStr) : Nat :=
  if b.flags &&& ASN1_STRING_FLAG_BITS_LEFT ≠ 0 then b.flags &&& 7
  else namedBitUnusedBits b.data

/-- ossl_cmp_calc_protection: compute the protection value for a message
    according to the algorithm in its header, using the credentials of the
    context. Returns the bit string (none on failure) together with the
    list of error codes pushed, in push order. -/
def ossl_cmp_calc_protection (ctx : CmpCtx) (msg : CmpMsg) :
    Option BitStr × List CmpErr :=
  match msg.header.protectionAlg with
  | none => (none, [CmpErr.unknownAlgorithmID])
  | some alg =>
    if alg.oid = NID_id_PasswordBasedMAC then
      match ctx.secretValue with
      | none => (none, [CmpErr.missingPBMSecret])
      | some secret =>
        match alg.param with
        | none => (none, [CmpErr.errorCalculatingProtection])
        | some AlgParam.garbage => (none, [CmpErr.wrongAlgorithmOID])
        | some (AlgParam.decodable pbm) =>
          let der := i2d_OSSL_CMP_PROTECTEDPART msg.header msg.body
          (some (mkProtectionBitStr (OSSL_CRMF_pbm_new pbm der secret)), [])
    else
      match ctx.pkey with
      | none => (none, [CmpErr.missingKeyInputForCreatingProtection])
      | some key =>
        match OBJ_find_sigid_algs alg.oid with
        | none => (none, [CmpErr.unknownAlgorithmID])
        | some md =>
          let der := i2d_OSSL_CMP_PROTECTEDPART msg.header msg.body
          (some { data := ASN1_item_sign_bytes key md der
                  flags := clearBitsLeft 0 ||| ASN1_STRING_FLAG_BITS_LEFT }, [])

/-- X509_add_cert with the flag combination used here: optionally skip
    self-signed certificates (NO_SS), skip structural duplicates (NO_DUP),
    and insert at the front (PREPEND) or at the end. Modelled from the
    spec (deduplicate-safe insertion; the implementation is an external
    collaborator). -/
def X509_add_cert (sk : List X509Cert) (c : X509Cert)
    (noDup noSS prepend : Bool) : List X509Cert :=
  if noSS = true ∧ c.selfSigned = true then sk
  else if noDup = true ∧ c ∈ sk then sk
  else if prepend = true then c :: sk
  else sk ++ [c]

/-- X509_add_certs: fold X509_add_cert over a list, appending. Modelled
    from the spec (the implementation is an external collaborator). -/
def X509_add_certs (sk : List X509Cert) (certs : List X509Cert)
    (noDup noSS : Bool) : List X509Cert :=
  certs.foldl (fun acc c => X509_add_cert acc c noDup noSS false) sk

/-- Modelled from the spec: the build_chain capability
    (ossl_cmp_build_cert_chain), an external best-effort chain builder
    over the untrusted pool; modelled as returning the pool. -/
def ossl_cmp_build_cert_chain (untrusted : List X509Cert)
    (target : X509Cert) : List X509Cert :=
  untrusted

/-- ossl_cmp_msg_add_extraCerts: ensure the message has a certificate
    list, prepend the own certificate (NO_DUP) when certificate and key
    are both present, append the chain built from the untrusted pool
    (NO_DUP and NO_SS), append the staged extra certificates (NO_DUP), and
    normalize an empty result back to an absent list. -/
def ossl_cmp_msg_add_extraCerts (ctx : CmpCtx) (msg : CmpMsg) : CmpMsg :=
  let sk0 := msg.extraCerts.getD []
  let sk1 :=
    match ctx.cert, ctx.pkey with
    | some c, some _ =>
      let withOwn := X509_add_cert sk0 c true false true
      match ctx.untrusted_certs with
      | some pool =>
        X509_add_certs withOwn (ossl_cmp_build_cert_chain pool c) true true
      | none => withOwn
    | _, _ => sk0
  let sk2 := X509_add_certs sk1 ctx.extraCertsOut true false
  { msg with extraCerts := if sk2 = [] then none else some sk2 }

/-- OSSL_CRMF_pbmp_new: assemble the PBM parameters from the pbm settings
    of the context (salt length, one-way function, iteration count and
    MAC algorithm). -/
def OSSL_CRMF_pbmp_new (ctx : CmpCtx) : PBMParameter :=
  { slen := ctx.pbm_slen, owf := ctx.pbm_owf
    itercnt := ctx.pbm_itercnt, macAlg := ctx.pbm_mac }

/-- set_pbmac_algor: build the PasswordBasedMAC algorithm descriptor from
    the pbm settings of the context (allocation failures are not
    modelled, so construction always succeeds). -/
def set_pbmac_algor (ctx : CmpCtx) : X509Algor :=
  { oid := NID_id_PasswordBasedMAC
    param := some (AlgParam.decodable (OSSL_CRMF_pbmp_new ctx)) }

/-- set_sig_algor: build a signature algorithm descriptor from the digest
    and the key type; none models the OBJ_find_sigid_by_algs failure
    (CMP_R_UNSUPPORTED_KEY_TYPE). The parameter is V_ASN1_UNDEF. -/
def set_sig_algor (ctx : CmpCtx) (key : EVPKey) : Option X509Algor :=
  match OBJ_find_sigid_by_algs ctx.digest key.ktype with
  | none => none
  | some nid => some { oid := nid, param := none }

/-- set_senderKID: take the given identifier, falling back to the
    reference value of the context; when one is available, overwrite the
    senderKID of the header with it, otherwise leave the message alone. -/
def set_senderKID (ctx : CmpCtx) (msg : CmpMsg) (kid : Option Nat) : CmpMsg :=
  match (match kid with | none => ctx.referenceValue | some i => some i) with
  | none => msg
  | some i => { msg with header := { msg.header with senderKID := some i } }

/-- The unconditional strip step of ossl_cmp_msg_protect: free and null
    the protectionAlg of the header and the protection of the message. -/
def stripProtection (msg : CmpMsg) : CmpMsg :=
  { msg with header := { msg.header with protectionAlg := none }
             protection := none }

/-- Result of ossl_cmp_msg_protect: the C return value, the error codes
    pushed in push order, and the (possibly partially mutated) message. -/
structure ProtectResult where
  ok : Bool
  errs : List CmpErr
  msg : CmpMsg
deriving DecidableEq, Repr

/-- The tail of ossl_cmp_msg_protect common to both credential paths:
    compute the protection, attach it, add the extra certificates, then
    fail with CMP_R_MISSING_SENDER_IDENTIFICATION when the sender is the
    NULL-DN and no senderKID is set (keeping all mutations), else
    succeed. -/
def protectFinish (ctx : CmpCtx) (msg : CmpMsg) : ProtectResult :=
  match ossl_cmp_calc_protection ctx msg with
  | (none, es) =>
    { ok := false, errs := es ++ [CmpErr.errorProtectingMessage], msg := msg }
  | (some prot, es) =>
    let msg1 := { msg with protection := some prot }
    let msg2 := ossl_cmp_msg_add_extraCerts ctx msg1
    if ossl_cmp_general_name_is_NULL_DN msg2.header.sender = true
        ∧ msg2.header.senderKID = none then
      { ok := false
        errs := es ++ [CmpErr.missingSenderIdentification,
                       CmpErr.errorProtectingMessage]
        msg := msg2 }
    else
      { ok := true, errs := es, msg := msg2 }

/-- ossl_cmp_msg_protect: strip pre-existing protection, return at once
    for unprotected send, select the PBM path when a shared secret is
    present, else the signature path when certificate and key are both
    present, else fail with
    CMP_R_MISSING_KEY_INPUT_FOR_CREATING_PROTECTION; then finish via
    protectFinish. -/
def ossl_cmp_msg_protect (ctx : CmpCtx) (msg0 : CmpMsg) : ProtectResult :=
  let msg := stripProtection msg0
  if ctx.unprotectedSend = true then
    { ok := true, errs := [], msg := msg }
  else
    match ctx.secretValue with
    | some _ =>
      let msg1 := { msg with
        header := { msg.header with protectionAlg := some (set_pbmac_algor ctx) } }
      protectFinish ctx (set_senderKID ctx msg1 none)
    | none =>
      match ctx.cert, ctx.pkey with
      | some cert, some key =>
        if X509_check_private_key cert key = true then
          match set_sig_algor ctx key with
          | none =>
            { ok := false
              errs := [CmpErr.unsupportedKeyType, CmpErr.errorProtectingMessage]
              msg := msg }
          | some alg =>
            let msg1 := { msg with
              header := { msg.header with protectionAlg := some alg } }
            protectFinish ctx (set_senderKID ctx msg1 cert.skid)
        else
          { ok := false
            errs := [CmpErr.certAndKeyDoNotMatch, CmpErr.errorProtectingMessage]
            msg := msg }
      | _, _ =>
        { ok := false
          errs := [CmpErr.missingKeyInputForCreatingProtection,
                   CmpErr.errorProtectingMessage]
          msg := msg }

/-- Store error reason codes raised by the session functions. -/
inductive StoreErr where
  | loadingStarted
  | unsupportedOperation
deriving DecidableEq, Repr

/-- An OSSL_STORE_SEARCH criterion, one of the four variants. -/
inductive StoreSearch where
  | byName (nameDer : List Nat)
  | byIssuerSerial (nameDer : List Nat) (serial : Nat)
  | byFingerprint (digest : Nat) (bytes : List Nat)
  | byAliasName (aliasStr : List Nat)
deriving DecidableEq, Repr

/-- One scripted backend response to a load call: either the pull
    succeeds and yields an optional object (its OSSL_STORE_INFO type tag),
    or the pull fails; in both cases the backend end-of-file state after
    the call is recorded. Modelled from the spec: the loader backend is an
    external collaborator, represented by a response script. -/
inductive PullOutcome where
  | ok (v : Option Nat) (eofAfter : Bool)
  | err (eofAfter : Bool)
deriving DecidableEq, Repr

/-- The OSSL_STORE_INFO_NAME type tag. -/
def OSSL_STORE_INFO_NAME : Nat := 1

/-- An OSSL_STORE_CTX session. Loader function pointers that may be NULL
    are modelled as Option fields carrying the result the function would
    return; the provider backend state (loader_ctx) is modelled by the
    response script, the end-of-file flag, and the filter parameters it
    has accepted. -/
structure StoreCtx where
  fetchedLoader : Bool
  pSetCtxParams : Option Bool
  loaderExpectFn : Option Bool
  loaderFindFn : Option Bool
  loaderErrorResult : Bool
  loading : Bool
  expectedType : Nat
  backendExpect : Option Nat
  backendCriterion : Option StoreSearch
  cachedInfo : Option (List Nat)
  errorFlag : Bool
  backendEof : Bool
  backendScript : List PullOutcome
  postProcess : Option (Nat → Option Nat)
  pwCache : List Nat

/-- OSSL_STORE_eof: query the backend end-of-file state. -/
def OSSL_STORE_eof (ctx : StoreCtx) : Bool := ctx.backendEof

/-- OSSL_STORE_error: the sticky session error flag for fetched loaders,
    the loader error query for legacy loaders. -/
def OSSL_STORE_error (ctx : StoreCtx) : Bool :=
  if ctx.fetchedLoader = true then ctx.errorFlag else ctx.loaderErrorResult

/-- OSSL_STORE_expect: fail with OSSL_STORE_R_LOADING_STARTED once
    loading has begun, leaving the session untouched; otherwise record the
    expected type and push it to the backend when possible. -/
def OSSL_STORE_expect (ctx : StoreCtx) (expectedType : Nat) :
    Bool × Option StoreErr × StoreCtx :=
  if ctx.loading = true then (false, some StoreErr.loadingStarted, ctx)
  else
    let ctx1 := { ctx with expectedType := expectedType }
    if ctx1.fetchedLoader = true then
      match ctx1.pSetCtxParams with
      | some accept => (accept, none, { ctx1 with backendExpect := some expectedType })
      | none => (true, none, ctx1)
    else
      match ctx1.loaderExpectFn with
      | some r => (r, none, ctx1)
      | none => (true, none, ctx1)

/-- OSSL_STORE_find: fail with OSSL_STORE_R_LOADING_STARTED once loading
    has begun, leaving the session untouched; otherwise push the criterion
    to the backend, failing with OSSL_STORE_R_UNSUPPORTED_OPERATION when
    the loader cannot take parameters. -/
def OSSL_STORE_find (ctx : StoreCtx) (search : StoreSearch) :
    Bool × Option StoreErr × StoreCtx :=
  if ctx.loading = true then (false, some StoreErr.loadingStarted, ctx)
  else if ctx.fetchedLoader = true then
    match ctx.pSetCtxParams with
    | none => (false, some StoreErr.unsupportedOperation, ctx)
    | some accept => (accept, none, { ctx with backendCriterion := some search })
  else
    match ctx.loaderFindFn with
    | none => (false, some StoreErr.unsupportedOperation, ctx)
    | some r => (r, none, ctx)

/-- One step of the pull part of OSSL_STORE_load: either an object (or
    NULL) is produced and the iteration continues with post-processing,
    or a fetched-loader pull failure returns NULL to the caller at once
    (setting the sticky error flag when the failure is not end-of-file). -/
inductive PullStep where
  | yield (v : Option Nat) (ctx : StoreCtx)
  | abort (ctx : StoreCtx)

/-- The pull part of OSSL_STORE_load: dequeue the front of the lookahead
    cache when it holds items, else pull one object from the backend.
    For a fetched loader a pull failure that is not end-of-file sets the
    sticky error flag and aborts the call; a legacy loader signals both
    failure and end-of-file by returning NULL. -/
def loadPull (ctx : StoreCtx) : PullStep :=
  match ctx.cachedInfo with
  | some (i :: rest) =>
    PullStep.yield (some i) { ctx with cachedInfo := some rest }
  | _ =>
    if ctx.fetchedLoader = true then
      match ctx.backendScript with
      | PullOutcome.ok v e :: rest =>
        PullStep.yield v { ctx with backendScript := rest, backendEof := e }
      | PullOutcome.err e :: rest =>
        let c := { ctx with backendScript := rest, backendEof := e }
        PullStep.abort (if OSSL_STORE_eof c = true then c
                        else { c with errorFlag := true })
      | [] =>
        PullStep.abort (if OSSL_STORE_eof ctx = true then ctx
                        else { ctx with errorFlag := true })
    else
      match ctx.backendScript with
      | PullOutcome.ok v e :: rest =>
        PullStep.yield v { ctx with backendScript := rest, backendEof := e }
      | PullOutcome.err e :: rest =>
        PullStep.yield none { ctx with backendScript := rest, backendEof := e }
      | [] => PullStep.yield none ctx

/-- The drop of an emptied lookahead cache performed at the top of each
    iteration of OSSL_STORE_load. -/
def normCache (ctx : StoreCtx) : StoreCtx :=
  if ctx.cachedInfo = some ([] : List Nat) then { ctx with cachedInfo := none }
  else ctx

/-- Termination measure for the load loop: cached items plus scripted
    backend responses left. -/
def storeCacheSize : Option (List Nat) → Nat
  | none => 0
  | some l => l.length

/-- Termination measure for the load loop. -/
def storeMeasure (c : StoreCtx) : Nat :=
  storeCacheSize c.cachedInfo + c.backendScript.length

/-- The iteration loop of OSSL_STORE_load (the again label): stop at
    end-of-file; pull an object; run the post-processing hook, retrying
    when it discards the object; retry as well when an active
    expected-type filter rejects a known type; finally clear the
    passphrase cache and return the object. -/
def loadLoop (ctx0 : StoreCtx) : Option Nat × StoreCtx :=
  if OSSL_STORE_eof ctx0 = true then (none, ctx0)
  else
    match h : loadPull (normCache ctx0) with
    | PullStep.abort c => (none, c)
    | PullStep.yield none c => (none, { c with pwCache := [] })
    | PullStep.yield (some x) c =>
      match hp : (match c.postProcess with
                  | some f => f x
                  | none => some x) with
      | none => loadLoop c
      | some y =>
        if c.expectedType ≠ 0 ∧ y ≠ OSSL_STORE_INFO_NAME ∧ y ≠ 0
            ∧ y ≠ c.expectedType then
          loadLoop c
        else (some y, { c with pwCache := [] })
termination_by storeMeasure ctx0
decreasing_by
  all_goals
    have hm : storeMeasure (normCache ctx0) = storeMeasure ctx0 := by
      unfold normCache
      split
      · rename_i hcc
        simp [storeMeasure, storeCacheSize, hcc]
      · rfl
    rw [← hm]
    revert h
    generalize normCache ctx0 = d
    intro h
    unfold loadPull at h
    split at h
    · rename_i i rest hcc
      injection h with hv hc
      subst hc
      simp [storeMeasure, storeCacheSize, hcc]
    · split at h
      · split at h
        · rename_i hs
          injection h with hv hc
          subst hc
          simp [storeMeasure, hs]
        · cases h
        · cases h
      · split at h
        · rename_i hs
          injection h with hv hc
          subst hc
          simp [storeMeasure, hs]
        · cases h
        · cases h

/-- OSSL_STORE_load: mark the session as loading and run the iteration
    loop. -/
def OSSL_STORE_load (ctx : StoreCtx) : Option Nat × StoreCtx :=
  loadLoop { ctx with loading := true }

/-- Split a character list at the first colon, like the strchr call of
    OSSL_STORE_open_with_libctx on the NUL-terminated scheme copy:
    returns the text before the colon and the text after it. -/
def splitFirstColon : List Char → Option (List Char × List Char)
  | [] => none
  | c :: cs =>
    if c = ':' then some ([], cs)
    else
      match splitFirstColon cs with
      | none => none
      | some (sc, rest) => some (c :: sc, rest)

/-- The built-in file scheme name. -/
def fileSchemeChars : List Char := ['f', 'i', 'l', 'e']

/-- ASCII-style lowercasing used to model strcasecmp. -/
def lowerChars (l : List Char) : List Char := l.map Char.toLower

/-- The candidate-scheme list built by OSSL_STORE_open_with_libctx: start
    with the file scheme; copy at most 255 characters of the URI
    (OPENSSL_strlcpy into a 256-byte buffer); when the copy contains a
    colon and the text before it is not the file scheme (case
    insensitively), add that text as a second candidate, first withdrawing
    the file candidate when the text after the colon starts with the
    authority marker. -/
def candidateSchemes (uri : List Char) : List (List Char) :=
  let schemeCopy := uri.take 255
  match splitFirstColon schemeCopy with
  | none => [fileSchemeChars]
  | some (sc, rest) =>
    if lowerChars sc = fileSchemeChars then [fileSchemeChars]
    else if rest.take 2 = ['/', '/'] then [sc]
    else [fileSchemeChars, sc]

/-- The candidate-scheme list as described by claim C7, stated from the
    claim wording for comparison with candidateSchemes: a bare path yields
    the file candidate only; a URI of the form scheme followed by colon
    and the authority marker yields the scheme candidate only; any other
    URI with a colon yields the file candidate and then the scheme
    candidate. -/
def claimC7Schemes (uri : List Char) : List (List Char) :=
  match splitFirstColon uri with
  | none => [fileSchemeChars]
  | some (sc, rest) =>
    if rest.take 2 = ['/', '/'] then [sc]
    else [fileSchemeChars, sc]

/-- A neutral sample context: no credentials, unprotected send off. -/
def sampleCtx : CmpCtx :=
  { secretValue := none, referenceValue := none, cert := none, pkey := none
    untrusted_certs := none, extraCertsOut := []
    pbm_slen := 16, pbm_owf := 4, pbm_itercnt := 500, pbm_mac := 6
    digest := 4, unprotectedSend := false }

/-- A sample message with NULL-DN sender, no senderKID, no protection. -/
def sampleMsg : CmpMsg :=
  { header := { sender := [], senderKID := none, protectionAlg := none }
    body := 2, protection := none, extraCerts := none }

/-- A sample certificate used in the extra-certificate scenarios. -/
def dupCert : X509Cert :=
  { certId := 0, pubkey := 0, skid := none, selfSigned := false }

/-- A sample message carrying a PasswordBasedMAC algorithm descriptor with
    a NULL parameter. -/
def pbmNoParamMsg : CmpMsg :=
  { sampleMsg with
    header := { sampleMsg.header with
                protectionAlg := some { oid := NID_id_PasswordBasedMAC, param := none } } }

/-- A sample message carrying the PasswordBasedMAC descriptor built from
    the sample context. -/
def pbmMsg : CmpMsg :=
  { sampleMsg with
    header := { sampleMsg.header with
                protectionAlg := some (set_pbmac_algor sampleCtx) } }

/-- A neutral sample store session over a fetched loader, before any
    load. -/
def sampleStoreCtx : StoreCtx :=
  { fetchedLoader := true, pSetCtxParams := some true
    loaderExpectFn := none, loaderFindFn := none, loaderErrorResult := false
    loading := false, expectedType := 0
    backendExpect := none, backendCriterion := none
    cachedInfo := none, errorFlag := false, backendEof := false
    backendScript := [], postProcess := none, pwCache := [] }

/-- protectFinish never mutates the header of the message it receives. -/
theorem protectFinish_header (ctx : CmpCtx) (m : CmpMsg) :
    ((protectFinish ctx m).msg).header = m.header := by
  unfold protectFinish
  rcases h : ossl_cmp_calc_protection ctx m with ⟨p, es⟩
  cases p with
  | none => rfl
  | some prot =>
    dsimp only
    split
    · rfl
    · rfl

/-- set_senderKID never changes the protectionAlg of the header. -/
theorem set_senderKID_protectionAlg (ctx : CmpCtx) (m : CmpMsg) (kid : Option Nat) :
    ((set_senderKID ctx m kid).header).protectionAlg = m.header.protectionAlg := by
  unfold set_senderKID
  split
  · rfl
  · rfl

/-- X509_add_cert with NO_DUP keeps a duplicate-free stack
    duplicate-free. -/
theorem X509_add_cert_nodup (sk : List X509Cert) (c : X509Cert)
    (noSS prepend : Bool) (h : sk.Nodup) :
    (X509_add_cert sk c true noSS prepend).Nodup := by
  unfold X509_add_cert
  split
  · exact h
  · split
    · exact h
    · rename_i hnss hdup
      have hc : c ∉ sk := fun hmem => hdup ⟨rfl, hmem⟩
      split
      · exact List.nodup_cons.mpr ⟨hc, h⟩
      · refine List.Nodup.append h (List.nodup_singleton c) ?j
        intro x hx hx1
        rw [List.mem_singleton] at hx1
        exact hc (hx1 ▸ hx)

/-- X509_add_certs with NO_DUP keeps a duplicate-free stack
    duplicate-free. -/
theorem X509_add_certs_nodup (sk : List X509Cert) (certs : List X509Cert)
    (noSS : Bool) (h : sk.Nodup) :
    (X509_add_certs sk certs true noSS).Nodup := by
  induction certs generalizing sk with
  | nil => exact h
  | cons c cs ih =>
    unfold X509_add_certs at ih ⊢
    exact ih (X509_add_cert sk c true noSS false) (X509_add_cert_nodup sk c noSS false h)

/-- The assembled extra-certificate stack is duplicate-free whenever the
    pre-existing stack is. -/
theorem add_extraCerts_stack_nodup (ctx : CmpCtx) (msg : CmpMsg)
    (h0 : (msg.extraCerts.getD []).Nodup) :
    ∀ l, (ossl_cmp_msg_add_extraCerts ctx msg).extraCerts = some l → l.Nodup := by
  intro l hl
  rcases hcc : ctx.cert with _ | c <;> rcases hkk : ctx.pkey with _ | k <;>
    simp only [ossl_cmp_msg_add_extraCerts, hcc, hkk] at hl
  case none.none | none.some | some.none =>
    split at hl
    · cases hl
    · cases hl
      exact X509_add_certs_nodup _ _ _ h0
  case some.some =>
    rcases huu : ctx.untrusted_certs with _ | pool <;> simp only [huu] at hl <;>
      split at hl
    · cases hl
    · cases hl
      exact X509_add_certs_nodup _ _ _ (X509_add_cert_nodup _ _ _ _ h0)
    · cases hl
    · cases hl
      exact X509_add_certs_nodup _ _ _
        (X509_add_certs_nodup _ _ _ (X509_add_cert_nodup _ _ _ _ h0))

/-- The assembler never leaves an empty-but-present certificate list. -/
theorem add_extraCerts_not_empty (ctx : CmpCtx) (msg : CmpMsg) :
    (ossl_cmp_msg_add_extraCerts ctx msg).extraCerts ≠ some [] := by
  simp only [ossl_cmp_msg_add_extraCerts]
  split
  · simp
  · rename_i hne
    simp [hne]

/-- The cache-drop step does not touch the loading flag. -/
theorem normCache_loading (c : StoreCtx) : (normCache c).loading = c.loading := by
  unfold normCache
  split
  · rfl
  · rfl

theorem loadPull_loading_yield (c : StoreCtx) (v : Option Nat) (d : StoreCtx)
    (h : loadPull c = PullStep.yield v d) : d.loading = c.loading := by
  unfold loadPull at h
  split at h
  · injection h with h1 h2
    subst h2
    rfl
  · split at h
    · split at h
      · injection h with h1 h2
        subst h2
        rfl
      · cases h
      · cases h
    · split at h
      · injection h with h1 h2
        subst h2
        rfl
      · injection h with h1 h2
        subst h2
        rfl
      · injection h with h1 h2
        subst h2
        rfl

theorem loadPull_loading_abort (c : StoreCtx) (d : StoreCtx)
    (h : loadPull c = PullStep.abort d) : d.loading = c.loading := by
  unfold loadPull at h
  split at h
  · cases h
  · split at h
    · split at h
      · cases h
      · injection h with h1
        subst h1
        split
        · rfl
        · rfl
      · injection h with h1
        subst h1
        split
        · rfl
        · rfl
    · split at h
      · cases h
      · cases h
      · cases h

theorem loadLoop_loading (c : StoreCtx) : ((loadLoop c).2).loading = c.loading := by
  induction c using loadLoop.induct with
  | case1 ctx0 h => simp [loadLoop, h]
  | case2 ctx0 hne d h =>
    rw [loadLoop.eq_def, if_neg hne]
    split
    · rename_i c1 heq
      rw [h] at heq
      injection heq with h1
      subst h1
      exact (loadPull_loading_abort _ _ h).trans (normCache_loading _)
    · rename_i c1 heq
      rw [h] at heq
      cases heq
    · rename_i x1 c1 heq
      rw [h] at heq
      cases heq
  | case3 ctx0 hne d h =>
    rw [loadLoop.eq_def, if_neg hne]
    split
    · rename_i c1 heq
      rw [h] at heq
      cases heq
    · rename_i c1 heq
      rw [h] at heq
      injection heq with h1 h2
      subst h2
      exact (loadPull_loading_yield _ _ _ h).trans (normCache_loading _)
    · rename_i x1 c1 heq
      rw [h] at heq
      cases heq
  | case4 ctx0 hne x d h hp ih =>
    rw [loadLoop.eq_def, if_neg hne]
    split
    · rename_i c1 heq
      rw [h] at heq
      cases heq
    · rename_i c1 heq
      rw [h] at heq
      cases heq
    · rename_i x1 c1 heq
      rw [h] at heq
      injection heq with h1 h2
      injection h1 with h1
      subst h1
      subst h2
      split
      · exact ih.trans ((loadPull_loading_yield _ _ _ h).trans (normCache_loading _))
      · rename_i y1 heq2
        rw [hp] at heq2
        cases heq2
  | case5 ctx0 hne x d h y hp hfil ih =>
    rw [loadLoop.eq_def, if_neg hne]
    split
    · rename_i c1 heq
      rw [h] at heq
      cases heq
    · rename_i c1 heq
      rw [h] at heq
      cases heq
    · rename_i x1 c1 heq
      rw [h] at heq
      injection heq with h1 h2
      injection h1 with h1
      subst h1
      subst h2
      split
      · rename_i heq2
        rw [hp] at heq2
        cases heq2
      · rename_i y1 heq2
        rw [hp] at heq2
        injection heq2 with h3
        subst h3
        rw [if_pos hfil]
        exact ih.trans ((loadPull_loading_yield _ _ _ h).trans (normCache_loading _))
  | case6 ctx0 hne x d h y hp hfil =>
    rw [loadLoop.eq_def, if_neg hne]
    split
    · rename_i c1 heq
      rw [h] at heq
      cases heq
    · rename_i c1 heq
      rw [h] at heq
      cases heq
    · rename_i x1 c1 heq
      rw [h] at heq
      injection heq with h1 h2
      injection h1 with h1
      subst h1
      subst h2
      split
      · rename_i heq2
        rw [hp] at heq2
        cases heq2
      · rename_i y1 heq2
        rw [hp] at heq2
        injection heq2 with h3
        subst h3
        rw [if_neg hfil]
        exact (loadPull_loading_yield _ _ _ h).trans (normCache_loading _)

/-- If a character does not occur in a list, splitting at it finds no
    occurrence. -/
theorem splitFirstColon_of_not_mem (l : List Char) (h : ':' ∉ l) :
    splitFirstColon l = none := by
  induction l with
  | nil => rfl
  | cons c cs ih =>
    simp only [List.mem_cons, not_or] at h
    obtain ⟨h1, h2⟩ := h
    simp only [splitFirstColon]
    rw [if_neg (fun hc => h1 hc.symm), ih h2]

/-- Splitting at the first colon of a list of the shape s colon t with no
    colon in s yields s and t. -/
theorem splitFirstColon_append (s t : List Char) (h : ':' ∉ s) :
    splitFirstColon (s ++ ':' :: t) = some (s, t) := by
  induction s with
  | nil => simp [splitFirstColon]
  | cons c cs ih =>
    simp only [List.mem_cons, not_or] at h
    obtain ⟨h1, h2⟩ := h
    simp only [List.cons_append, splitFirstColon]
    rw [if_neg (fun hc => h1 hc.symm)]
    have ha : cs.append (':' :: t) = cs ++ ':' :: t := rfl
    rw [ha, ih h2]

/-- Truncating a URI of the shape s colon r to 255 characters keeps the
    scheme text, the colon and the first 254 minus length s characters of
    the remainder, provided the scheme text is short enough. -/
theorem take255_append (s r : List Char) (hlen : s.length ≤ 252) :
    (s ++ ':' :: r).take 255 = s ++ ':' :: r.take (254 - s.length) := by
  rw [List.take_append_eq_append_take, List.take_of_length_le (by omega)]
  congr 1
  have h255 : 255 - s.length = (254 - s.length) + 1 := by omega
  rw [h255]
  rfl

/-- Claim C1, counterexample: a context with neither a shared secret nor a
    certificate-and-key pair, but with unprotectedSend set, makes
    ossl_cmp_msg_protect succeed with an empty error stack instead of
    failing with missing credentials. -/
theorem protect_missing_credentials_counterexample :
    ({ sampleCtx with unprotectedSend := true } : CmpCtx).secretValue = none ∧
    ({ sampleCtx with unprotectedSend := true } : CmpCtx).cert = none ∧
    ({ sampleCtx with unprotectedSend := true } : CmpCtx).pkey = none ∧
    (ossl_cmp_msg_protect { sampleCtx with unprotectedSend := true } sampleMsg).ok = true ∧
    (ossl_cmp_msg_protect { sampleCtx with unprotectedSend := true } sampleMsg).errs = [] := by
  decide

/-- Claim C1 (amended): for every context whose unprotectedSend flag is
    not set, if the context has neither a shared secret nor a
    certificate-and-private-key pair then ossl_cmp_msg_protect fails with
    CMP_R_MISSING_KEY_INPUT_FOR_CREATING_PROTECTION (the missing
    credentials error), and if the shared secret is present the
    password-based-MAC path is taken regardless of certificate and key:
    the algorithm descriptor attached to the message is the PBM descriptor
    built from the context. -/
theorem protect_path_selection (ctx : CmpCtx) (msg : CmpMsg)
    (hu : ctx.unprotectedSend = false) :
    (ctx.secretValue = none → (ctx.cert = none ∨ ctx.pkey = none) →
      (ossl_cmp_msg_protect ctx msg).ok = false ∧
      (ossl_cmp_msg_protect ctx msg).errs =
        [CmpErr.missingKeyInputForCreatingProtection, CmpErr.errorProtectingMessage]) ∧
    (∀ s, ctx.secretValue = some s →
      ((ossl_cmp_msg_protect ctx msg).msg.header).protectionAlg =
        some (set_pbmac_algor ctx)) := by
  constructor
  · intro hsec hck
    rcases hck with hc | hk
    · constructor <;> simp [ossl_cmp_msg_protect, hu, hsec, hc]
    · cases hcc : ctx.cert <;> constructor <;>
        simp [ossl_cmp_msg_protect, hu, hsec, hk, hcc]
  · intro s hsec
    simp only [ossl_cmp_msg_protect, hu, Bool.false_eq_true, if_false, hsec]
    rw [protectFinish_header, set_senderKID_protectionAlg]

/-- Witness for the amended claim C1 at concrete inputs. -/
theorem protect_path_selection_witness :
    ((ossl_cmp_msg_protect sampleCtx sampleMsg).ok = false ∧
     (ossl_cmp_msg_protect sampleCtx sampleMsg).errs =
       [CmpErr.missingKeyInputForCreatingProtection, CmpErr.errorProtectingMessage]) ∧
    ((ossl_cmp_msg_protect { sampleCtx with secretValue := some [5] }
        sampleMsg).msg.header).protectionAlg =
      some (set_pbmac_algor { sampleCtx with secretValue := some [5] }) :=
  ⟨(protect_path_selection sampleCtx sampleMsg rfl).1 rfl (Or.inl rfl),
   (protect_path_selection { sampleCtx with secretValue := some [5] }
      sampleMsg rfl).2 [5] rfl⟩

/-- Claim C2: ossl_cmp_msg_protect first unconditionally clears any
    pre-existing protectionAlg and protection (protecting a message is
    indistinguishable from protecting its stripped form), and when the
    unprotectedSend flag of the context is set it returns success at once
    with no further mutation: the result message is exactly the stripped
    input, with the protection fields absent and not recomputed. -/
theorem protect_strip_then_unprotected_send (ctx : CmpCtx) (msg : CmpMsg) :
    ossl_cmp_msg_protect ctx msg = ossl_cmp_msg_protect ctx (stripProtection msg) ∧
    (ctx.unprotectedSend = true →
      ossl_cmp_msg_protect ctx msg =
        { ok := true, errs := [], msg := stripProtection msg }) := by
  constructor
  · rfl
  · intro h
    simp [ossl_cmp_msg_protect, h]

/-- Witness for claim C2 at a concrete input whose protection fields are
    populated before the call. -/
theorem protect_strip_then_unprotected_send_witness :
    ossl_cmp_msg_protect { sampleCtx with unprotectedSend := true } pbmMsg =
      { ok := true, errs := [], msg := stripProtection pbmMsg } ∧
    ossl_cmp_msg_protect { sampleCtx with unprotectedSend := true } pbmMsg =
      ossl_cmp_msg_protect { sampleCtx with unprotectedSend := true }
        (stripProtection pbmMsg) :=
  ⟨(protect_strip_then_unprotected_send { sampleCtx with unprotectedSend := true }
      pbmMsg).2 rfl,
   (protect_strip_then_unprotected_send { sampleCtx with unprotectedSend := true }
      pbmMsg).1⟩

/-- set_senderKID never changes the protection of the message. -/
theorem set_senderKID_protection (ctx : CmpCtx) (m : CmpMsg) (kid : Option Nat) :
    (set_senderKID ctx m kid).protection = m.protection := by
  unfold set_senderKID
  split
  · rfl
  · rfl

/-- protectFinish on a message that does not carry a protection value
    yet: if the finished message does carry one while its sender is the
    NULL-DN and its senderKID is absent, the call failed with the
    missing-sender-identification error and the protection value stays
    attached. -/
theorem protectFinish_msi (ctx : CmpCtx) (m : CmpMsg) (p : BitStr)
    (hm : m.protection = none)
    (hp : ((protectFinish ctx m).msg).protection = some p)
    (hdn : ossl_cmp_general_name_is_NULL_DN
        (((protectFinish ctx m).msg).header).sender = true)
    (hkid : (((protectFinish ctx m).msg).header).senderKID = none) :
    (protectFinish ctx m).ok = false ∧
    CmpErr.missingSenderIdentification ∈ (protectFinish ctx m).errs ∧
    ((protectFinish ctx m).msg).protection = some p := by
  rcases h : ossl_cmp_calc_protection ctx m with ⟨q, es⟩
  simp only [protectFinish] at hp hdn hkid ⊢
  rw [h] at hp hdn hkid ⊢
  cases q with
  | none =>
    dsimp at hp
    rw [hm] at hp
    cases hp
  | some prot =>
    dsimp at hp hdn hkid ⊢
    by_cases hcond : ossl_cmp_general_name_is_NULL_DN
        ((ossl_cmp_msg_add_extraCerts ctx { m with protection := some prot }).header).sender = true
        ∧ ((ossl_cmp_msg_add_extraCerts ctx
              { m with protection := some prot }).header).senderKID = none
    · rw [if_pos hcond] at hp ⊢
      refine ⟨rfl, ?hm, hp⟩
      simp
    · rw [if_neg hcond] at hdn hkid
      exact absurd ⟨hdn, hkid⟩ hcond

/-- Claim C4, counterexample: on the password-based-MAC path of
    ossl_cmp_calc_protection, a context without a shared secret fails
    with CMP_R_MISSING_PBM_SECRET even when the MAC parameters are also
    absent (the secret check comes first), and with a secret present an
    algorithm descriptor without embedded MAC parameters fails with the
    generic CMP_R_ERROR_CALCULATING_PROTECTION, which is not the unknown
    algorithm error. -/
theorem calc_protection_pbm_checks_counterexample :
    pbmNoParamMsg.header.protectionAlg =
      some { oid := NID_id_PasswordBasedMAC, param := none } ∧
    ossl_cmp_calc_protection sampleCtx pbmNoParamMsg =
      (none, [CmpErr.missingPBMSecret]) ∧
    ossl_cmp_calc_protection { sampleCtx with secretValue := some [5] }
        pbmNoParamMsg =
      (none, [CmpErr.errorCalculatingProtection]) ∧
    CmpErr.missingPBMSecret ≠ CmpErr.unknownAlgorithmID ∧
    CmpErr.errorCalculatingProtection ≠ CmpErr.unknownAlgorithmID := by
  decide

/-- Claim C4 (amended): on the password-based-MAC path of
    ossl_cmp_calc_protection the shared-secret check is performed first:
    without a shared secret the call fails with CMP_R_MISSING_PBM_SECRET
    (the MissingSecret error), and otherwise, when the algorithm
    descriptor carries no embedded MAC parameters, it fails with the
    generic CMP_R_ERROR_CALCULATING_PROTECTION error rather than with the
    unknown-algorithm error. -/
theorem calc_protection_pbm_checks (ctx : CmpCtx) (msg : CmpMsg)
    (alg : X509Algor)
    (halg : msg.header.protectionAlg = some alg)
    (hoid : alg.oid = NID_id_PasswordBasedMAC) :
    (ctx.secretValue = none →
      ossl_cmp_calc_protection ctx msg = (none, [CmpErr.missingPBMSecret])) ∧
    (∀ s, ctx.secretValue = some s → alg.param = none →
      ossl_cmp_calc_protection ctx msg =
        (none, [CmpErr.errorCalculatingProtection])) := by
  constructor
  · intro hsec
    simp [ossl_cmp_calc_protection, halg, hoid, hsec]
  · intro s hsec hparam
    simp [ossl_cmp_calc_protection, halg, hoid, hsec, hparam]

/-- Witness for the amended claim C4 at concrete inputs. -/
theorem calc_protection_pbm_checks_witness :
    ossl_cmp_calc_protection sampleCtx pbmNoParamMsg =
      (none, [CmpErr.missingPBMSecret]) ∧
    ossl_cmp_calc_protection { sampleCtx with secretValue := some [5] }
        pbmNoParamMsg =
      (none, [CmpErr.errorCalculatingProtection]) :=
  ⟨(calc_protection_pbm_checks sampleCtx pbmNoParamMsg
      { oid := NID_id_PasswordBasedMAC, param := none } rfl rfl).1 rfl,
   (calc_protection_pbm_checks { sampleCtx with secretValue := some [5] }
      pbmNoParamMsg
      { oid := NID_id_PasswordBasedMAC, param := none } rfl rfl).2 [5] rfl rfl⟩

/-- Claim C5, counterexample: the protection bit string computed on the
    MAC path carries an unused-bit count hardcoded to zero by the
    BITS_LEFT flag, not the named-bit-list normalization: on a MAC value
    whose last octet has one trailing zero bit the encoder emits zero
    unused bits while the named-bit-list rule would emit one. -/
theorem calc_protection_unused_bits_counterexample :
    (ossl_cmp_calc_protection { sampleCtx with secretValue := some [5] }
        pbmMsg).1 =
      some { data := [5, 2, 4, 6], flags := 8 } ∧
    encodedUnusedBits { data := [5, 2, 4, 6], flags := 8 } = 0 ∧
    namedBitUnusedBits [5, 2, 4, 6] = 1 ∧
    encodedUnusedBits { data := [5, 2, 4, 6], flags := 8 } ≠
      namedBitUnusedBits [5, 2, 4, 6] := by
  decide

/-- Claim C5 (amended): every protection value the MAC path of
    ossl_cmp_calc_protection returns has the BITS_LEFT flag set with a
    zero unused-bit count, so the encoder emits zero unused bits and the
    named-bit-list trimming of trailing zero bits is disabled, not
    applied. -/
theorem calc_protection_unused_bits (ctx : CmpCtx) (msg : CmpMsg)
    (alg : X509Algor) (b : BitStr)
    (halg : msg.header.protectionAlg = some alg)
    (hoid : alg.oid = NID_id_PasswordBasedMAC)
    (hb : (ossl_cmp_calc_protection ctx msg).1 = some b) :
    b.flags &&& ASN1_STRING_FLAG_BITS_LEFT ≠ 0 ∧ encodedUnusedBits b = 0 := by
  simp only [ossl_cmp_calc_protection, halg, hoid, if_true, if_pos] at hb
  rcases hsec : ctx.secretValue with _ | s
  · rw [hsec] at hb
    cases hb
  · rw [hsec] at hb
    rcases hparam : alg.param with _ | p
    · rw [hparam] at hb
      cases hb
    · rw [hparam] at hb
      cases p with
      | garbage => cases hb
      | decodable pbm =>
        simp only at hb
        injection hb with hb
        subst hb
        constructor
        · simp [mkProtectionBitStr, clearBitsLeft, ASN1_STRING_FLAG_BITS_LEFT]
        · simp only [encodedUnusedBits, mkProtectionBitStr, clearBitsLeft,
                     ASN1_STRING_FLAG_BITS_LEFT]
          split
          · decide
          · rename_i hcond
            exact absurd (by decide) hcond

/-- Witness for the amended claim C5 at concrete inputs. -/
theorem calc_protection_unused_bits_witness :
    ({ data := [5, 2, 4, 6], flags := 8 } : BitStr).flags &&&
        ASN1_STRING_FLAG_BITS_LEFT ≠ 0 ∧
    encodedUnusedBits { data := [5, 2, 4, 6], flags := 8 } = 0 :=
  calc_protection_unused_bits { sampleCtx with secretValue := some [5] }
    pbmMsg (set_pbmac_algor sampleCtx) { data := [5, 2, 4, 6], flags := 8 }
    rfl rfl (by decide)

/-- Claim C6, counterexample: ossl_cmp_msg_add_extraCerts does not
    deduplicate a pre-existing extraCerts list: a message that already
    carries the same certificate twice keeps both copies. -/
theorem add_extraCerts_dedup_counterexample :
    (ossl_cmp_msg_add_extraCerts sampleCtx
        { sampleMsg with extraCerts := some [dupCert, dupCert] }).extraCerts =
      some [dupCert, dupCert] ∧
    ¬ ([dupCert, dupCert].Nodup) := by
  decide

/-- Claim C6 (amended): whenever the extraCerts of the incoming message
    are absent or duplicate-free, ossl_cmp_msg_add_extraCerts never
    produces a list containing the same certificate (by structural
    equality) twice, and it never leaves an empty-but-present list: when
    no certificates qualify the field stays absent. Pre-existing
    duplicates, however, are preserved. -/
theorem add_extraCerts_dedup_and_absent (ctx : CmpCtx) (msg : CmpMsg)
    (h : ∀ l, msg.extraCerts = some l → l.Nodup) :
    (∀ l, (ossl_cmp_msg_add_extraCerts ctx msg).extraCerts = some l →
      l.Nodup ∧ l ≠ []) := by
  intro l hl
  refine ⟨add_extraCerts_stack_nodup ctx msg ?h0 l hl, ?hne⟩
  · cases he : msg.extraCerts with
    | none => simp
    | some l0 => simpa using h l0 he
  · intro hcontra
    subst hcontra
    exact add_extraCerts_not_empty ctx msg hl

/-- Witness for the amended claim C6 at concrete inputs: a context with
    certificate, key, untrusted pool and staged certificates, applied to a
    message without extra certificates. -/
theorem add_extraCerts_dedup_and_absent_witness :
    (ossl_cmp_msg_add_extraCerts
        { sampleCtx with
          cert := some dupCert
          pkey := some { kid := 0, ktype := 3 }
          untrusted_certs := some [dupCert,
            { certId := 7, pubkey := 7, skid := none, selfSigned := true }]
          extraCertsOut := [dupCert,
            { certId := 9, pubkey := 9, skid := none, selfSigned := false }] }
        sampleMsg).extraCerts =
      some [dupCert, { certId := 9, pubkey := 9, skid := none, selfSigned := false }] ∧
    ([dupCert, { certId := 9, pubkey := 9, skid := none, selfSigned := false }] :
        List X509Cert).Nodup ∧
    ([dupCert, { certId := 9, pubkey := 9, skid := none, selfSigned := false }] :
        List X509Cert) ≠ [] := by
  have hres := add_extraCerts_dedup_and_absent
    { sampleCtx with
      cert := some dupCert
      pkey := some { kid := 0, ktype := 3 }
      untrusted_certs := some [dupCert,
        { certId := 7, pubkey := 7, skid := none, selfSigned := true }]
      extraCertsOut := [dupCert,
        { certId := 9, pubkey := 9, skid := none, selfSigned := false }] }
    sampleMsg (fun l hl => by cases hl)
    [dupCert, { certId := 9, pubkey := 9, skid := none, selfSigned := false }]
    (by decide)
  exact ⟨by decide, hres.1, hres.2⟩

/-- Claim C7, counterexample: on a URI whose scheme text is the file
    scheme followed by a plain path, the open call builds only the file
    candidate, while the claim predicts the file candidate followed by the
    parsed scheme candidate. -/
theorem candidate_schemes_counterexample :
    candidateSchemes ['f', 'i', 'l', 'e', ':', 'p'] = [fileSchemeChars] ∧
    claimC7Schemes ['f', 'i', 'l', 'e', ':', 'p'] =
      [fileSchemeChars, fileSchemeChars] ∧
    ([fileSchemeChars] : List (List Char)) ≠ [fileSchemeChars, fileSchemeChars] := by
  decide

/-- Claim C7 (amended): a bare path with no colon yields only the file
    candidate; and for every URI of the shape scheme, colon, remainder
    whose scheme text is not the file scheme (case-insensitively) and is
    short enough to survive the 255-character truncation, the remainder
    starting with the authority marker yields only the scheme candidate,
    and otherwise the file candidate is tried first and the scheme
    candidate second. -/
theorem candidate_schemes_order :
    (∀ u : List Char, ':' ∉ u → candidateSchemes u = [fileSchemeChars]) ∧
    (∀ s r : List Char, s.length ≤ 252 → ':' ∉ s →
      lowerChars s ≠ fileSchemeChars →
      candidateSchemes (s ++ ':' :: r) =
        if r.take 2 = ['/', '/'] then [s] else [fileSchemeChars, s]) := by
  constructor
  · intro u hu
    have h1 : ':' ∉ u.take 255 := fun hmem => hu (List.take_subset 255 u hmem)
    simp [candidateSchemes, splitFirstColon_of_not_mem _ h1]
  · intro s r hlen hs hlow
    have h1 := take255_append s r hlen
    have h2 : (r.take (254 - s.length)).take 2 = r.take 2 := by
      rw [List.take_take]
      congr 1
      omega
    simp only [candidateSchemes, h1,
               splitFirstColon_append s (r.take (254 - s.length)) hs]
    rw [if_neg hlow, h2]

/-- Witness for the amended claim C7 at concrete inputs: a bare path, an
    authority-marker URI, and a plain scheme-prefixed path. -/
theorem candidate_schemes_order_witness :
    candidateSchemes ['p', 'a', 't', 'h'] = [fileSchemeChars] ∧
    candidateSchemes (['h', 't', 't', 'p'] ++ ':' :: ['/', '/', 'x']) =
      (if (['/', '/', 'x'] : List Char).take 2 = ['/', '/']
       then [['h', 't', 't', 'p']]
       else [fileSchemeChars, ['h', 't', 't', 'p']]) ∧
    candidateSchemes (['h', 't', 't', 'p'] ++ ':' :: ['x']) =
      (if (['x'] : List Char).take 2 = ['/', '/']
       then [['h', 't', 't', 'p']]
       else [fileSchemeChars, ['h', 't', 't', 'p']]) :=
  ⟨candidate_schemes_order.1 ['p', 'a', 't', 'h'] (by decide),
   candidate_schemes_order.2 ['h', 't', 't', 'p'] ['/', '/', 'x']
     (by decide) (by decide) (by decide),
   candidate_schemes_order.2 ['h', 't', 't', 'p'] ['x']
     (by decide) (by decide) (by decide)⟩

/-- Claim C10: a URI whose text before the first colon equals the file
    scheme ignoring case keeps the built-in file candidate and adds no
    second candidate, regardless of whether the remainder starts with the
    authority marker: exactly one scheme is tried. -/
theorem file_scheme_single_candidate (s r : List Char)
    (h1 : ':' ∉ s) (h2 : lowerChars s = fileSchemeChars) :
    candidateSchemes (s ++ ':' :: r) = [fileSchemeChars] := by
  have hlen : s.length ≤ 252 := by
    have hl := congrArg List.length h2
    simp [lowerChars, fileSchemeChars] at hl
    omega
  have ht := take255_append s r hlen
  simp only [candidateSchemes, ht,
             splitFirstColon_append s (r.take (254 - s.length)) h1]
  rw [if_pos h2]

/-- Witness for claim C10 at a concrete mixed-case file URI with an
    authority marker. -/
theorem file_scheme_single_candidate_witness :
    candidateSchemes (['F', 'I', 'L', 'E'] ++ ':' :: ['/', '/', 'x']) =
      [fileSchemeChars] :=
  file_scheme_single_candidate ['F', 'I', 'L', 'E'] ['/', '/', 'x']
    (by decide) (by decide)

/-- Claim C8: OSSL_STORE_load permanently marks a session as loading, and
    once a session is loading, OSSL_STORE_expect and OSSL_STORE_find fail
    with the OSSL_STORE_R_LOADING_STARTED error and leave the session,
    its filters included, completely unchanged. -/
theorem store_filter_freeze (ctx : StoreCtx) (ty : Nat) (cr : StoreSearch) :
    ((OSSL_STORE_load ctx).2).loading = true ∧
    (ctx.loading = true →
      OSSL_STORE_expect ctx ty = (false, some StoreErr.loadingStarted, ctx) ∧
      OSSL_STORE_find ctx cr = (false, some StoreErr.loadingStarted, ctx)) := by
  constructor
  · show ((loadLoop { ctx with loading := true }).2).loading = true
    rw [loadLoop_loading]
  · intro h
    constructor
    · simp [OSSL_STORE_expect, h]
    · simp [OSSL_STORE_find, h]

/-- Witness for claim C8 at concrete inputs. -/
theorem store_filter_freeze_witness :
    ((OSSL_STORE_load sampleStoreCtx).2).loading = true ∧
    (OSSL_STORE_expect { sampleStoreCtx with loading := true } 4 =
      (false, some StoreErr.loadingStarted,
       { sampleStoreCtx with loading := true }) ∧
     OSSL_STORE_find { sampleStoreCtx with loading := true }
        (StoreSearch.byAliasName [1]) =
      (false, some StoreErr.loadingStarted,
       { sampleStoreCtx with loading := true })) :=
  ⟨(store_filter_freeze sampleStoreCtx 4 (StoreSearch.byAliasName [1])).1,
   (store_filter_freeze { sampleStoreCtx with loading := true } 4
      (StoreSearch.byAliasName [1])).2 rfl⟩

/-- Claim C9: on a fetched-loader session with an empty lookahead cache
    and not at end-of-file, a backend pull failure that does not raise the
    end-of-file state makes OSSL_STORE_load set the sticky error flag and
    return no object, and OSSL_STORE_error afterwards reports the error;
    while a pull failure that is an end-of-file condition terminates the
    stream without setting the flag, so OSSL_STORE_error stays clean and
    callers can tell exhaustion and mid-stream failure apart. -/
theorem store_load_error_flag (ctx : StoreCtx) (rest : List PullOutcome)
    (hf : ctx.fetchedLoader = true)
    (hc : ctx.cachedInfo = none)
    (he : ctx.backendEof = false) :
    (ctx.backendScript = PullOutcome.err false :: rest →
      OSSL_STORE_load ctx =
        (none, { ctx with loading := true, backendScript := rest,
                          errorFlag := true }) ∧
      OSSL_STORE_error (OSSL_STORE_load ctx).2 = true ∧
      OSSL_STORE_eof (OSSL_STORE_load ctx).2 = false) ∧
    (ctx.backendScript = PullOutcome.err true :: rest → ctx.errorFlag = false →
      OSSL_STORE_load ctx =
        (none, { ctx with loading := true, backendScript := rest,
                          backendEof := true }) ∧
      OSSL_STORE_error (OSSL_STORE_load ctx).2 = false) := by
  obtain ⟨f, psp, lef, lff, ler, ld, et, be, bc, ci, ef, beof, bs, pp, pw⟩ := ctx
  dsimp at hf hc he
  subst hf
  subst hc
  subst he
  constructor
  · intro hs
    dsimp at hs
    subst hs
    refine ⟨?e1, ?e2, ?e3⟩
    · show loadLoop _ = _
      rw [loadLoop.eq_def]
      simp [OSSL_STORE_eof, normCache, loadPull]
    · show OSSL_STORE_error (loadLoop _).2 = true
      rw [loadLoop.eq_def]
      simp [OSSL_STORE_eof, normCache, loadPull, OSSL_STORE_error]
    · show OSSL_STORE_eof (loadLoop _).2 = false
      rw [loadLoop.eq_def]
      simp [OSSL_STORE_eof, normCache, loadPull]
  · intro hs hef
    dsimp at hs hef
    subst hs
    subst hef
    refine ⟨?f1, ?f2⟩
    · show loadLoop _ = _
      rw [loadLoop.eq_def]
      simp [OSSL_STORE_eof, normCache, loadPull]
    · show OSSL_STORE_error (loadLoop _).2 = false
      rw [loadLoop.eq_def]
      simp [OSSL_STORE_eof, normCache, loadPull, OSSL_STORE_error]

/-- Witness for claim C9 at concrete inputs: one script with a
    non-end-of-file pull failure and one with an end-of-file pull
    failure. -/
theorem store_load_error_flag_witness :
    (OSSL_STORE_load { sampleStoreCtx with
        backendScript := [PullOutcome.err false] } =
      (none, { sampleStoreCtx with loading := true, backendScript := [],
                                   errorFlag := true }) ∧
     OSSL_STORE_error (OSSL_STORE_load { sampleStoreCtx with
        backendScript := [PullOutcome.err false] }).2 = true ∧
     OSSL_STORE_eof (OSSL_STORE_load { sampleStoreCtx with
        backendScript := [PullOutcome.err false] }).2 = false) ∧
    (OSSL_STORE_load { sampleStoreCtx with
        backendScript := [PullOutcome.err true] } =
      (none, { sampleStoreCtx with loading := true, backendScript := [],
                                   backendEof := true }) ∧
     OSSL_STORE_error (OSSL_STORE_load { sampleStoreCtx with
        backendScript := [PullOutcome.err true] }).2 = false) :=
  ⟨(store_load_error_flag { sampleStoreCtx with
      backendScript := [PullOutcome.err false] } [] rfl rfl rfl).1 rfl,
   (store_load_error_flag { sampleStoreCtx with
      backendScript := [PullOutcome.err true] } [] rfl rfl rfl).2 rfl rfl⟩
